import Mathlib

/-!
  Verification of the natural-language specification of the
  WebSocketManager class (src/unnamed/part_005, lines 276-679) against a
  shallow embedding of its code.

  The manager is single-threaded and event/timer driven, so it is embedded
  as a step function over an explicit state record.  Each internal method
  of the class is translated to a Lean function; methods that can emit
  events or call transport methods return a pair of the new state and the
  list of observable effects, in the order the source produces them.

  Host facilities are modelled as follows:
  - JSON.parse / JSON.stringify operate on an explicit JsValue data model.
    An inbound MessageEvent carries both the raw string and the outcome of
    the host JSON.parse on it (none when parsing throws); the try/catch
    around JSON.parse in the source becomes a match on that Option.
  - setInterval / setTimeout / clearInterval / clearTimeout become three
    Option-valued timer slots in the state (armed with their delay).  A
    timer-firing event applies the timer callback only when the slot is
    armed, exactly as the host only fires timers that exist.
  - The underlying WebSocket object is modelled by its readyState
    (0 CONNECTING, 1 OPEN, 2 CLOSING, 3 CLOSED); this.ws is an Option of
    it.  Transport-level events (open/message/close/error) are delivered
    by the driving trace and apply only when a socket object exists.
    Calls to ws.send / ws.close and construction of a new WebSocket are
    recorded as effects.
  - console logging is not observable to the API user and is not modelled.
  - document/window listener registration (visibilitychange, online,
    offline) is modelled by delivering the corresponding events in the
    trace; the handlers are embedded below.
-/

namespace WSM

/-- Data model for host JSON values (the values JSON.parse can produce and
JSON.stringify can consume).  Numbers are restricted to integers, which
covers every value appearing in the manager. -/
inductive JsValue where
  | null
  | bool (b : Bool)
  | num (n : Int)
  | str (s : String)
  | arr (xs : List JsValue)
  | obj (fields : List (String × JsValue))

/-- Escape of one character inside a JSON string literal (quote and
backslash, the cases relevant to the values used by the manager). -/
def jsEscapeChar (c : Char) : String :=
  if c = '"' then "\\\"" else if c = '\\' then "\\\\" else String.singleton c

/-- Escape of a string body as JSON.stringify renders it. -/
def jsEscape (s : String) : String :=
  String.join (s.data.map jsEscapeChar)

mutual

/-- Model of JSON.stringify on the JsValue data model. -/
def jsStringify : JsValue → String
  | JsValue.null => "null"
  | JsValue.bool b => cond b "true" "false"
  | JsValue.num n => toString n
  | JsValue.str s => "\"" ++ jsEscape s ++ "\""
  | JsValue.arr xs => "[" ++ String.intercalate "," (jsStringifyList xs) ++ "]"
  | JsValue.obj fs => "\x7b" ++ String.intercalate "," (jsStringifyFields fs) ++ "\x7d"

/-- Stringification of the elements of a JSON array. -/
def jsStringifyList : List JsValue → List String
  | [] => []
  | v :: vs => jsStringify v :: jsStringifyList vs

/-- Stringification of the fields of a JSON object. -/
def jsStringifyFields : List (String × JsValue) → List String
  | [] => []
  | (k, v) :: fs => ("\"" ++ jsEscape k ++ "\":" ++ jsStringify v) :: jsStringifyFields fs

end

/-- JavaScript property access value.field on a parsed JSON value: a field
of an object when present, undefined (none) otherwise.  Property access on
null throws in JS; in the one place the manager reads a property
(message.type inside a try/catch) that throw is caught and observably
equals the undefined case, so none is returned here as well. -/
def jsGetField : JsValue → String → Option JsValue
  | JsValue.obj fs, k => fs.lookup k
  | _, _ => none

/-- Inbound MessageEvent: the raw data string together with the outcome of
the host JSON.parse on it (none when JSON.parse throws). -/
structure MsgEvent where
  raw : String
  parsed : Option JsValue

/-- Source: const defaultGetPingMessage = () => JSON.stringify(\x7b type: "ping" \x7d). -/
def defaultGetPingMessage : Unit → String :=
  fun _ => jsStringify (JsValue.obj [("type", JsValue.str "ping")])

/-- Source: defaultIsPongMessage parses event.data inside a try/catch and
returns message.type === "pong"; any exception yields false.  Totality of
this Lean function models that the JS function never throws. -/
def defaultIsPongMessage : MsgEvent → Bool :=
  fun e =>
    match e.parsed with
    | some v =>
        match jsGetField v "type" with
        | some (JsValue.str t) => t == "pong"
        | _ => false
    | none => false

/-- The merged this.options record of the constructor.
maxReconnectAttempts is none for the default Infinity.  The getPingMessage
and isPongMessage fields are none exactly when the merged option is null. -/
structure WSOptions where
  heartbeatInterval : Nat
  heartbeatTimeout : Nat
  reconnectBaseInterval : Nat
  maxReconnectInterval : Nat
  maxReconnectAttempts : Option Nat
  autoConnect : Bool
  serializeData : Bool
  deserializeData : Bool
  getPingMessage : Option (Unit → String)
  isPongMessage : Option (MsgEvent → Bool)

/-- The caller-supplied options object.  Each field is none when the key is
omitted, so that the object-spread merge in the constructor can distinguish
an omitted key (default kept) from an explicitly supplied value; for the
two injected functions the inner Option is none when the caller passed
null. -/
structure CtorOptions where
  heartbeatInterval : Option Nat := none
  heartbeatTimeout : Option Nat := none
  reconnectBaseInterval : Option Nat := none
  maxReconnectInterval : Option Nat := none
  maxReconnectAttempts : Option (Option Nat) := none
  autoConnect : Option Bool := none
  serializeData : Option Bool := none
  deserializeData : Option Bool := none
  getPingMessage : Option (Option (Unit → String)) := none
  isPongMessage : Option (Option (MsgEvent → Bool)) := none

/-- Source: this.options = \x7b ...defaults, ...options \x7d in the
constructor.  A key present in options overrides the default, including
the default heartbeat function pair. -/
def mergeOptions (o : CtorOptions) : WSOptions where
  heartbeatInterval := o.heartbeatInterval.getD 30000
  heartbeatTimeout := o.heartbeatTimeout.getD 10000
  reconnectBaseInterval := o.reconnectBaseInterval.getD 1000
  maxReconnectInterval := o.maxReconnectInterval.getD 30000
  maxReconnectAttempts := o.maxReconnectAttempts.getD none
  autoConnect := o.autoConnect.getD true
  serializeData := o.serializeData.getD false
  deserializeData := o.deserializeData.getD false
  getPingMessage := o.getPingMessage.getD (some defaultGetPingMessage)
  isPongMessage := o.isPongMessage.getD (some defaultIsPongMessage)

/-- WebSocket.CONNECTING. -/
def CONNECTING : Nat := 0
/-- WebSocket.OPEN. -/
def OPEN : Nat := 1
/-- WebSocket.CLOSING. -/
def CLOSING : Nat := 2
/-- WebSocket.CLOSED. -/
def CLOSED : Nat := 3

/-- Complete mutable state of one WebSocketManager instance.  The three
timer fields model the setInterval/setTimeout handles; some d means the
timer is armed and was scheduled with delay d milliseconds. -/
structure WSState where
  opts : WSOptions
  ws : Option Nat
  readyState : Nat
  reconnectAttempts : Nat
  forcedClose : Bool
  isReconnecting : Bool
  heartbeatTimer : Option Nat
  heartbeatTimeoutTimer : Option Nat
  reconnectTimer : Option Nat
  messageQueue : List JsValue

/-- Payload of a message event delivered to listeners: the deserialized
JSON value when deserializeData is set and parsing succeeded, otherwise
the raw data. -/
inductive MsgOut where
  | parsed (v : JsValue)
  | raw (s : String)

/-- Data handed to this.ws.send: either the original payload (no
serialization) or a string (JSON.stringify output or a ping message). -/
inductive TxData where
  | raw (d : JsValue)
  | str (s : String)

/-- Events the manager emits to registered listeners via _emit. -/
inductive EmitEvent where
  | connecting
  | opened
  | message (d : MsgOut)
  | close (code : Nat) (reason : String) (wasClean : Bool)
  | error
  | readyStateChange (st : Nat)
  | reconnectAttempt (attempt : Nat) (interval : Nat)
  | reconnectFailed

/-- Observable effects of one step: listener emissions, transport calls
and transport construction. -/
inductive Effect where
  | emit (e : EmitEvent)
  | txSend (d : TxData)
  | txClose (code : Nat) (reason : String)
  | txNew

/-- Source: this.ws && this.ws.readyState === WebSocket.OPEN. -/
def wsIsOpen : Option Nat → Bool
  | some w => w == OPEN
  | none => false

/-- Source guard of connect(): this.ws && (CONNECTING || OPEN). -/
def wsActive : Option Nat → Bool
  | some w => w == CONNECTING || w == OPEN
  | none => false

/-- Source: this.reconnectAttempts >= this.options.maxReconnectAttempts;
with the default Infinity this comparison is always false. -/
def attemptsReached (s : WSState) : Bool :=
  match s.opts.maxReconnectAttempts with
  | none => false
  | some m => decide (m ≤ s.reconnectAttempts)

/-- Source: _stopHeartbeat clears the heartbeat interval and then the
heartbeat timeout. -/
def stopHeartbeat (s : WSState) : WSState :=
  { s with heartbeatTimer := none, heartbeatTimeoutTimer := none }

/-- Source: _clearHeartbeatTimeout. -/
def clearHeartbeatTimeout (s : WSState) : WSState :=
  { s with heartbeatTimeoutTimer := none }

/-- Source: _clearReconnectTimer. -/
def clearReconnectTimer (s : WSState) : WSState :=
  { s with reconnectTimer := none }

/-- Source: _startHeartbeat returns early when options.getPingMessage is
null, otherwise stops any running heartbeat and arms the interval timer. -/
def startHeartbeat (s : WSState) : WSState :=
  match s.opts.getPingMessage with
  | none => s
  | some _ =>
      { s with heartbeatTimer := some s.opts.heartbeatInterval,
               heartbeatTimeoutTimer := none }

/-- Serialization applied by send(): JSON.stringify when serializeData is
configured, the raw payload otherwise. -/
def encodeOut (o : WSOptions) (d : JsValue) : TxData :=
  if o.serializeData then TxData.str (jsStringify d) else TxData.raw d

/-- Source: send(data).  When readyState is OPEN the (optionally
serialized) message goes to this.ws.send; otherwise the payload is pushed
onto this.messageQueue and the call returns without error. -/
def send (d : JsValue) (s : WSState) : WSState × List Effect :=
  if s.readyState = OPEN then
    (s, [Effect.txSend (encodeOut s.opts d)])
  else
    ({ s with messageQueue := s.messageQueue ++ [d] }, [])

/-- Source: queue.forEach((data) => this.send(data)) inside
_flushMessageQueue. -/
def sendEach : List JsValue → WSState → WSState × List Effect
  | [], s => (s, [])
  | d :: rest, s =>
      ((sendEach rest (send d s).1).1,
       (send d s).2 ++ (sendEach rest (send d s).1).2)

/-- Source: _flushMessageQueue returns when the queue is empty, otherwise
copies the queue, clears this.messageQueue and sends each entry. -/
def flushMessageQueue (s : WSState) : WSState × List Effect :=
  if s.messageQueue.isEmpty then (s, [])
  else sendEach s.messageQueue { s with messageQueue := [] }

/-- Exponential backoff delay of _scheduleReconnect:
min(reconnectBaseInterval * 2 ^ reconnectAttempts, maxReconnectInterval). -/
def backoffInterval (s : WSState) : Nat :=
  min (s.opts.reconnectBaseInterval * 2 ^ s.reconnectAttempts)
      s.opts.maxReconnectInterval

/-- Source: _scheduleReconnect.  Returns unchanged when forcedClose,
isReconnecting, or the attempt cap is reached (emitting reconnect-failed
in the cap case); otherwise records isReconnecting, emits
reconnect-attempt with the 1-based attempt number and the backoff delay,
and arms the reconnect timer with that delay. -/
def scheduleReconnect (s : WSState) : WSState × List Effect :=
  if s.forcedClose || s.isReconnecting || attemptsReached s then
    (s, if attemptsReached s then [Effect.emit EmitEvent.reconnectFailed] else [])
  else
    ({ s with isReconnecting := true, reconnectTimer := some (backoffInterval s) },
     [Effect.emit (EmitEvent.reconnectAttempt (s.reconnectAttempts + 1) (backoffInterval s))])

/-- Source: connect().  No-op when the socket is already CONNECTING or
OPEN.  Otherwise clears forcedClose, transitions to CONNECTING (emitting
ready-state-change), emits connecting and constructs the transport.  The
ctorOk flag is the environment choice of whether new WebSocket(url)
throws; on a throw the catch hands the error to _onError, which only
emits an error event, and this.ws keeps its previous value because the
assignment never completed. -/
def connect (ctorOk : Bool) (s : WSState) : WSState × List Effect :=
  if wsActive s.ws then (s, [])
  else if ctorOk then
    ({ s with forcedClose := false, readyState := CONNECTING, ws := some CONNECTING },
     [Effect.emit (EmitEvent.readyStateChange CONNECTING),
      Effect.emit EmitEvent.connecting, Effect.txNew])
  else
    ({ s with forcedClose := false, readyState := CONNECTING },
     [Effect.emit (EmitEvent.readyStateChange CONNECTING),
      Effect.emit EmitEvent.connecting, Effect.emit EmitEvent.error])

/-- State updates of close() before its branch: forcedClose := true,
_stopHeartbeat, _clearReconnectTimer. -/
def closePre (s : WSState) : WSState :=
  { s with forcedClose := true, heartbeatTimer := none,
           heartbeatTimeoutTimer := none, reconnectTimer := none }

/-- Source: close(code, reason).  With an OPEN socket it calls
this.ws.close(code, reason) (the socket moves to CLOSING); otherwise it
synthesizes an immediate CLOSED transition and a close event with
wasClean = true. -/
def close (code : Nat) (reason : String) (s : WSState) : WSState × List Effect :=
  if wsIsOpen (closePre s).ws then
    ({ closePre s with ws := some CLOSING }, [Effect.txClose code reason])
  else
    ({ closePre s with readyState := CLOSED },
     [Effect.emit (EmitEvent.readyStateChange CLOSED),
      Effect.emit (EmitEvent.close code reason true)])

/-- Source: destroy() calls close(1000, "Instance destroyed"), removes the
global listeners, clears the message queue and the listener map, and nulls
this.ws.  Listener-map clearing has no further observable consequence in
this effect model. -/
def destroy (s : WSState) : WSState × List Effect :=
  ({ (close 1000 "Instance destroyed" s).1 with messageQueue := [], ws := none },
   (close 1000 "Instance destroyed" s).2)

/-- State updates of _onOpen before the queue flush: readyState := OPEN,
reconnectAttempts := 0, isReconnecting := false, and _startHeartbeat when
options.getPingMessage is configured. -/
def onOpenPre (s : WSState) : WSState :=
  let s1 := { s with readyState := OPEN, reconnectAttempts := 0, isReconnecting := false }
  if s1.opts.getPingMessage.isSome then startHeartbeat s1 else s1

/-- Source: _onOpen.  Emits ready-state-change(OPEN), resets the reconnect
bookkeeping, starts the heartbeat when configured, flushes the message
queue and finally emits open. -/
def onOpen (s : WSState) : WSState × List Effect :=
  ((flushMessageQueue (onOpenPre s)).1,
   Effect.emit (EmitEvent.readyStateChange OPEN) ::
     ((flushMessageQueue (onOpenPre s)).2 ++ [Effect.emit EmitEvent.opened]))

/-- Source: _handlePong clears the heartbeat timeout. -/
def handlePong (s : WSState) : WSState := clearHeartbeatTimeout s

/-- Business-message half of _onMessage: with deserializeData the data is
JSON.parsed inside a try/catch, falling back to the raw data on failure;
otherwise the raw data is forwarded. -/
def businessMessage (e : MsgEvent) (s : WSState) : WSState × List Effect :=
  if s.opts.deserializeData then
    match e.parsed with
    | some v => (s, [Effect.emit (EmitEvent.message (MsgOut.parsed v))])
    | none => (s, [Effect.emit (EmitEvent.message (MsgOut.raw e.raw))])
  else (s, [Effect.emit (EmitEvent.message (MsgOut.raw e.raw))])

/-- Source: _onMessage.  The injected pong predicate is consulted first;
a pong is consumed by _handlePong and not forwarded. -/
def onMessage (e : MsgEvent) (s : WSState) : WSState × List Effect :=
  match s.opts.isPongMessage with
  | some isPong => if isPong e then (handlePong s, []) else businessMessage e s
  | none => businessMessage e s

/-- State updates of _onClose before the reconnect decision:
readyState := CLOSED (its ready-state-change emission is listed in
onClose) and _stopHeartbeat. -/
def onClosePre (s : WSState) : WSState :=
  stopHeartbeat { s with readyState := CLOSED }

/-- Source: _onClose.  Emits ready-state-change(CLOSED) and close with the
transport close information, then schedules a reconnect unless the close
was forced. -/
def onClose (code : Nat) (reason : String) (wasClean : Bool) (s : WSState) :
    WSState × List Effect :=
  if (onClosePre s).forcedClose then
    (onClosePre s,
     [Effect.emit (EmitEvent.readyStateChange CLOSED),
      Effect.emit (EmitEvent.close code reason wasClean)])
  else
    ((scheduleReconnect (onClosePre s)).1,
     [Effect.emit (EmitEvent.readyStateChange CLOSED),
      Effect.emit (EmitEvent.close code reason wasClean)] ++
       (scheduleReconnect (onClosePre s)).2)

/-- Source: _onError only emits the error event. -/
def onError (s : WSState) : WSState × List Effect :=
  (s, [Effect.emit EmitEvent.error])

/-- Body of the heartbeat interval callback.  With an OPEN socket it calls
the injected getPingMessage, sends the result and arms the heartbeat
timeout; the none branch corresponds to the try/catch swallowing the
failure of calling a null producer. -/
def heartbeatTick (s : WSState) : WSState × List Effect :=
  if wsIsOpen s.ws then
    match s.opts.getPingMessage with
    | some ping =>
        ({ s with heartbeatTimeoutTimer := some s.opts.heartbeatTimeout },
         [Effect.txSend (TxData.str (ping ()))])
    | none => (s, [])
  else (s, [])

/-- Body of the heartbeat timeout callback:
this.ws.close(1006, "Heartbeat timeout").  A single-shot timer disarms on
firing.  An OPEN or CONNECTING socket moves to CLOSING; on a null socket
the JS body throws a TypeError inside the timer callback, which reaches no
listener and changes no manager state. -/
def heartbeatTimeoutFire (s : WSState) : WSState × List Effect :=
  match s.ws with
  | some w =>
      ({ s with heartbeatTimeoutTimer := none,
                ws := some (if w == OPEN || w == CONNECTING then CLOSING else w) },
       [Effect.txClose 1006 "Heartbeat timeout"])
  | none => ({ s with heartbeatTimeoutTimer := none }, [])

/-- Source: _handleOnline clears the reconnect timer and connects
immediately unless the close was forced or the manager is already OPEN. -/
def handleOnline (ctorOk : Bool) (s : WSState) : WSState × List Effect :=
  if !s.forcedClose && !(s.readyState == OPEN) then
    connect ctorOk (clearReconnectTimer s)
  else (s, [])

/-- Source: _handleOffline clears the reconnect timer and, when a socket
exists, invokes this.ws.onclose directly with code 1006 and reason
"Network offline" (the socket readyState itself is not changed by this
synthetic call; wasClean is absent, hence falsy). -/
def handleOffline (s : WSState) : WSState × List Effect :=
  match (clearReconnectTimer s).ws with
  | some _ => onClose 1006 "Network offline" false (clearReconnectTimer s)
  | none => (clearReconnectTimer s, [])

/-- Source: _handleVisibilityChange.  Without a configured getPingMessage
it returns immediately; a hidden page stops the heartbeat; a visible page
restarts the heartbeat on an OPEN socket, or connects when neither a
forced close nor a reconnect is in flight. -/
def handleVisibilityChange (hidden : Bool) (ctorOk : Bool) (s : WSState) :
    WSState × List Effect :=
  if s.opts.getPingMessage.isNone then (s, [])
  else if hidden then (stopHeartbeat s, [])
  else if wsIsOpen s.ws then (startHeartbeat s, [])
  else if !s.forcedClose && !s.isReconnecting then connect ctorOk s
  else (s, [])

/-- Driving events of one manager instance: public API calls, transport
events on the current socket, timer firings, and the global
online/offline/visibilitychange events.  Events that may construct a
transport carry the environment choice ctorOk. -/
inductive Ev where
  | callConnect (ctorOk : Bool)
  | callSend (d : JsValue)
  | callClose (code : Nat) (reason : String)
  | callDestroy
  | transportOpen
  | transportMessage (e : MsgEvent)
  | transportClose (code : Nat) (reason : String) (wasClean : Bool)
  | transportError
  | fireHeartbeat
  | fireHeartbeatTimeout
  | fireReconnect (ctorOk : Bool)
  | netOnline (ctorOk : Bool)
  | netOffline
  | visibilityChange (hidden : Bool) (ctorOk : Bool)

/-- One step of the manager.  Transport events apply only when a socket
object exists (the handlers are installed on it); the platform moves the
socket readyState to OPEN before the open handler and to CLOSED before
the close handler.  Timer events apply only when the corresponding timer
is armed.  The reconnect timer callback increments reconnectAttempts and
calls connect(). -/
def step (s : WSState) : Ev → WSState × List Effect
  | Ev.callConnect ok => connect ok s
  | Ev.callSend d => send d s
  | Ev.callClose code reason => close code reason s
  | Ev.callDestroy => destroy s
  | Ev.transportOpen =>
      match s.ws with
      | some _ => onOpen { s with ws := some OPEN }
      | none => (s, [])
  | Ev.transportMessage e =>
      match s.ws with
      | some _ => onMessage e s
      | none => (s, [])
  | Ev.transportClose code reason wasClean =>
      match s.ws with
      | some _ => onClose code reason wasClean { s with ws := some CLOSED }
      | none => (s, [])
  | Ev.transportError =>
      match s.ws with
      | some _ => onError s
      | none => (s, [])
  | Ev.fireHeartbeat =>
      match s.heartbeatTimer with
      | some _ => heartbeatTick s
      | none => (s, [])
  | Ev.fireHeartbeatTimeout =>
      match s.heartbeatTimeoutTimer with
      | some _ => heartbeatTimeoutFire s
      | none => (s, [])
  | Ev.fireReconnect ok =>
      match s.reconnectTimer with
      | some _ =>
          connect ok { s with reconnectTimer := none,
                              reconnectAttempts := s.reconnectAttempts + 1 }
      | none => (s, [])
  | Ev.netOnline ok => handleOnline ok s
  | Ev.netOffline => handleOffline s
  | Ev.visibilityChange hidden ok => handleVisibilityChange hidden ok s

/-- Run of a trace of events, accumulating effects in order. -/
def run : WSState → List Ev → WSState × List Effect
  | s, [] => (s, [])
  | s, ev :: rest =>
      ((run (step s ev).1 rest).1, (step s ev).2 ++ (run (step s ev).1 rest).2)

/-- Field initialization of the constructor (before the optional
autoConnect call). -/
def initState (o : CtorOptions) : WSState where
  opts := mergeOptions o
  ws := none
  readyState := CLOSED
  reconnectAttempts := 0
  forcedClose := false
  isReconnecting := false
  heartbeatTimer := none
  heartbeatTimeoutTimer := none
  reconnectTimer := none
  messageQueue := []

/-- Constructor including the autoConnect call. -/
def newManager (o : CtorOptions) (ctorOk : Bool) : WSState × List Effect :=
  if (mergeOptions o).autoConnect then connect ctorOk (initState o)
  else (initState o, [])

/-- All transmissions among a list of effects, in order. -/
def txSends (effs : List Effect) : List TxData :=
  effs.filterMap fun e =>
    match e with
    | Effect.txSend d => some d
    | _ => none

/-- All reconnect-attempt emissions among a list of effects, as pairs of
the announced attempt number and delay, in order. -/
def reconnectDelays (effs : List Effect) : List (Nat × Nat) :=
  effs.filterMap fun e =>
    match e with
    | Effect.emit (EmitEvent.reconnectAttempt a i) => some (a, i)
    | _ => none

/-- Number of reconnect-failed emissions among a list of effects. -/
def reconnectFailedCount (effs : List Effect) : Nat :=
  (effs.filter fun e =>
    match e with
    | Effect.emit EmitEvent.reconnectFailed => true
    | _ => false).length

/-- All close emissions among a list of effects, as
(code, reason, wasClean) triples, in order. -/
def closeEmits (effs : List Effect) : List (Nat × String × Bool) :=
  effs.filterMap fun e =>
    match e with
    | Effect.emit (EmitEvent.close c r w) => some (c, r, w)
    | _ => none

/-- Events for a sequence of send() calls. -/
def sendEvs (ds : List JsValue) : List Ev := ds.map Ev.callSend

/-- State after delivering callDestroy. -/
def afterDestroy (s : WSState) : WSState := (step s Ev.callDestroy).1

/-- A connecting manager constructed with all-default options: the state
right after the autoConnect call of the constructor, before the transport
opens. -/
def connectingDefault : WSState := (connect true (initState {})).1

/-- Event of one unexpected transport drop (abnormal closure 1006). -/
def dropEv : Ev := Ev.transportClose 1006 "abnormal closure" false

/-- Run of the scenario of claim C2 with all-default options
(base 1000, max 30000, unbounded attempts): connect and open once, then
five consecutive unexpected drops, delivering the reconnect timer firing
(with a failing connection attempt) whenever the timer is armed. -/
def c2Trace : List Ev :=
  [Ev.callConnect true, Ev.transportOpen,
   dropEv, Ev.fireReconnect true,
   dropEv, Ev.fireReconnect true,
   dropEv, Ev.fireReconnect true,
   dropEv, Ev.fireReconnect true,
   dropEv]

/-- Options of the scenario of claim C4: maxReconnectAttempts = 3. -/
def c4Opts : CtorOptions := { maxReconnectAttempts := some (some 3) }

/-- Run of the scenario of claim C4: connect and open once, then repeated
unexpected drops; the reconnect timer firing is delivered when armed, and
two manual connect() calls are interleaved so that four unexpected drops
occur in total. -/
def c4Trace : List Ev :=
  [Ev.callConnect true, Ev.transportOpen,
   dropEv, Ev.fireReconnect true,
   dropEv, Ev.callConnect true,
   dropEv, Ev.callConnect true,
   dropEv]

/-- Constructor options that explicitly pass null for both injected
heartbeat functions (as opposed to omitting them). -/
def c5Opts : CtorOptions :=
  { getPingMessage := some none, isPongMessage := some none }

/-- A send() while the manager is not OPEN only appends to the queue and
produces no effect at all. -/
theorem send_notOpen (d : JsValue) (s : WSState) (h : s.readyState ≠ OPEN) :
    send d s = ({ s with messageQueue := s.messageQueue ++ [d] }, []) := by
  simp [send, h]

/-- A whole trace of send() calls while the manager is not OPEN appends the
payloads in order and produces no effect. -/
theorem run_sends (ds : List JsValue) (s : WSState) (h : s.readyState ≠ OPEN) :
    run s (sendEvs ds) = ({ s with messageQueue := s.messageQueue ++ ds }, []) := by
  induction ds generalizing s with
  | nil => simp [sendEvs, run]
  | cons d rest ih =>
      simp only [sendEvs, List.map_cons] at ih ⊢
      simp only [run, step, send_notOpen d s h]
      rw [ih { s with messageQueue := s.messageQueue ++ [d] } h]
      simp [List.append_assoc]

/-- Sending each element of a list while OPEN transmits each payload in
order and leaves the state untouched. -/
theorem sendEach_open (q : List JsValue) (s : WSState) (h : s.readyState = OPEN) :
    sendEach q s = (s, q.map fun d => Effect.txSend (encodeOut s.opts d)) := by
  induction q with
  | nil => simp [sendEach]
  | cons d rest ih => simp [sendEach, send, h, ih]

/-- Flushing while OPEN empties the queue and transmits its entries in
FIFO order. -/
theorem flush_open (s : WSState) (h : s.readyState = OPEN) :
    flushMessageQueue s =
      ({ s with messageQueue := [] },
       s.messageQueue.map fun d => Effect.txSend (encodeOut s.opts d)) := by
  cases s with
  | mk o w rs ra fc ir ht htt rt mq =>
      simp only at h
      unfold flushMessageQueue
      by_cases hq : mq.isEmpty
      · rw [List.isEmpty_iff] at hq
        subst hq
        simp
      · simp only [if_neg hq]
        exact sendEach_open mq _ h

/-- Fields of the pre-flush state of _onOpen. -/
theorem onOpenPre_fields (s : WSState) :
    (onOpenPre s).readyState = OPEN ∧
    (onOpenPre s).messageQueue = s.messageQueue ∧
    (onOpenPre s).opts = s.opts ∧
    (onOpenPre s).reconnectAttempts = 0 ∧
    (onOpenPre s).isReconnecting = false ∧
    (onOpenPre s).ws = s.ws ∧
    (onOpenPre s).forcedClose = s.forcedClose ∧
    (onOpenPre s).reconnectTimer = s.reconnectTimer := by
  unfold onOpenPre startHeartbeat
  by_cases hp : s.opts.getPingMessage.isSome
  · simp only [hp, if_true]
    rcases hopt : s.opts.getPingMessage with _ | f
    · simp [hopt] at hp
    · simp
  · simp [hp]

/-- Structure of one _onOpen invocation: the queue is emptied, its
contents are transmitted in FIFO order between the ready-state-change and
the open emission, and the remaining fields are those of onOpenPre. -/
theorem onOpen_spec (s : WSState) :
    (onOpen s).1 = { onOpenPre s with messageQueue := [] } ∧
    (onOpen s).2 =
      Effect.emit (EmitEvent.readyStateChange OPEN) ::
        ((s.messageQueue.map fun d => Effect.txSend (encodeOut s.opts d)) ++
         [Effect.emit EmitEvent.opened]) := by
  have hf := flush_open (onOpenPre s) (onOpenPre_fields s).1
  constructor
  · show (flushMessageQueue (onOpenPre s)).1 = _
    rw [hf]
  · show Effect.emit (EmitEvent.readyStateChange OPEN) ::
        ((flushMessageQueue (onOpenPre s)).2 ++ [Effect.emit EmitEvent.opened]) = _
    rw [hf, (onOpenPre_fields s).2.1, (onOpenPre_fields s).2.2.1]

/-- connect() never changes the reconnect counter, the message queue or
the heartbeat timers. -/
theorem connect_fields (ok : Bool) (s : WSState) :
    (connect ok s).1.reconnectAttempts = s.reconnectAttempts ∧
    (connect ok s).1.messageQueue = s.messageQueue ∧
    (connect ok s).1.heartbeatTimer = s.heartbeatTimer ∧
    (connect ok s).1.heartbeatTimeoutTimer = s.heartbeatTimeoutTimer ∧
    (connect ok s).1.opts = s.opts := by
  unfold connect
  split
  · exact ⟨rfl, rfl, rfl, rfl, rfl⟩
  · split <;> exact ⟨rfl, rfl, rfl, rfl, rfl⟩

/-- scheduleReconnect never changes the reconnect counter, the heartbeat
timers, the options or the queue. -/
theorem scheduleReconnect_fields (s : WSState) :
    (scheduleReconnect s).1.reconnectAttempts = s.reconnectAttempts ∧
    (scheduleReconnect s).1.messageQueue = s.messageQueue ∧
    (scheduleReconnect s).1.heartbeatTimer = s.heartbeatTimer ∧
    (scheduleReconnect s).1.heartbeatTimeoutTimer = s.heartbeatTimeoutTimer ∧
    (scheduleReconnect s).1.opts = s.opts := by
  unfold scheduleReconnect
  split <;> exact ⟨rfl, rfl, rfl, rfl, rfl⟩

/-- onClose never changes the reconnect counter or the options. -/
theorem onClose_fields (code : Nat) (reason : String) (wc : Bool) (s : WSState) :
    (onClose code reason wc s).1.reconnectAttempts = s.reconnectAttempts ∧
    (onClose code reason wc s).1.opts = s.opts := by
  unfold onClose
  split
  · exact ⟨rfl, rfl⟩
  · exact ⟨(scheduleReconnect_fields _).1, (scheduleReconnect_fields _).2.2.2.2⟩

/-- Heartbeat-relevant fields preserved by _startHeartbeat. -/
theorem startHeartbeat_fields (s : WSState) :
    (startHeartbeat s).reconnectAttempts = s.reconnectAttempts ∧
    (startHeartbeat s).opts = s.opts ∧
    (startHeartbeat s).messageQueue = s.messageQueue ∧
    (startHeartbeat s).reconnectTimer = s.reconnectTimer := by
  unfold startHeartbeat
  split <;> exact ⟨rfl, rfl, rfl, rfl⟩

/-- Fields preserved (or cleared) by _onMessage: the options, heartbeat
interval timer, reconnect state and queue are untouched; the heartbeat
timeout timer is either untouched or cleared by _handlePong. -/
theorem onMessage_fields (e : MsgEvent) (s : WSState) :
    (onMessage e s).1.opts = s.opts ∧
    (onMessage e s).1.heartbeatTimer = s.heartbeatTimer ∧
    (onMessage e s).1.reconnectAttempts = s.reconnectAttempts ∧
    (onMessage e s).1.reconnectTimer = s.reconnectTimer ∧
    (onMessage e s).1.messageQueue = s.messageQueue ∧
    ((onMessage e s).1.heartbeatTimeoutTimer = s.heartbeatTimeoutTimer ∨
     (onMessage e s).1.heartbeatTimeoutTimer = none) := by
  unfold onMessage handlePong clearHeartbeatTimeout businessMessage
  repeat' split
  all_goals
    exact ⟨rfl, rfl, rfl, rfl, rfl, by first | exact Or.inl rfl | exact Or.inr rfl⟩

/-- Transmission extraction ignores emissions. -/
theorem txSends_cons_emit (e : EmitEvent) (l : List Effect) :
    txSends (Effect.emit e :: l) = txSends l := by
  simp [txSends]

/-- Transmission extraction distributes over append. -/
theorem txSends_append (a b : List Effect) :
    txSends (a ++ b) = txSends a ++ txSends b := by
  simp [txSends]

/-- Transmission extraction of a pure transmission list. -/
theorem txSends_of_map (q : List JsValue) (f : JsValue → TxData) :
    txSends (q.map fun d => Effect.txSend (f d)) = q.map f := by
  induction q with
  | nil => rfl
  | cons d rest ih => simp [txSends, List.filterMap_cons] at ih ⊢; exact ih

/-- Claim C1: every send() while the manager is not Open appends the
payload to the outbound queue without transmitting and without error (the
queuing phase produces no effect at all), and on the next transition to
Open every queued payload is transmitted exactly once, in FIFO enqueue
order (the transmissions of the open step are exactly the queue contents,
each optionally serialized), leaving the queue empty. -/
theorem c1_queued_sends_flushed_fifo (s : WSState) (ds : List JsValue) (w : Nat)
    (hNotOpen : s.readyState ≠ OPEN) (hws : s.ws = some w) :
    (run s (sendEvs ds)).2 = [] ∧
    (run s (sendEvs ds)).1.messageQueue = s.messageQueue ++ ds ∧
    txSends (step (run s (sendEvs ds)).1 Ev.transportOpen).2 =
      (s.messageQueue ++ ds).map (encodeOut s.opts) ∧
    (step (run s (sendEvs ds)).1 Ev.transportOpen).1.messageQueue = [] := by
  rw [run_sends ds s hNotOpen]
  refine ⟨rfl, rfl, ?_, ?_⟩
  · show txSends (step { s with messageQueue := s.messageQueue ++ ds } Ev.transportOpen).2 = _
    simp only [step, hws]
    rw [(onOpen_spec _).2, txSends_cons_emit, txSends_append, txSends_of_map]
    simp [txSends]
  · show (step { s with messageQueue := s.messageQueue ++ ds } Ev.transportOpen).1.messageQueue = []
    simp only [step, hws]
    rw [(onOpen_spec _).1]

/-- Witness for C1 at a concrete connecting manager and two payloads. -/
theorem c1_queued_sends_flushed_fifo_witness :
    connectingDefault.readyState ≠ OPEN ∧
    txSends (step (run connectingDefault
        (sendEvs [JsValue.str "a", JsValue.str "b"])).1 Ev.transportOpen).2 =
      [TxData.raw (JsValue.str "a"), TxData.raw (JsValue.str "b")] :=
  ⟨by decide,
   (c1_queued_sends_flushed_fifo connectingDefault [JsValue.str "a", JsValue.str "b"]
      CONNECTING (by decide) rfl).2.2.1.trans rfl⟩

/-- Claim C3: whenever the unexpected-close handler schedules a reconnect
timer with reconnectAttempts = k (guard not blocked: not a forced close,
no reconnect already in flight, cap not reached), the armed delay is
exactly min(reconnectBaseInterval * 2 ^ k, maxReconnectInterval), and the
single reconnect-attempt emission of that step carries attempt number
k + 1 together with that exact delay. -/
theorem c3_reconnect_delay_formula (s : WSState) (w code : Nat) (reason : String)
    (wc : Bool) (hws : s.ws = some w) (hfc : s.forcedClose = false)
    (hir : s.isReconnecting = false) (hcap : attemptsReached s = false) :
    (step s (Ev.transportClose code reason wc)).1.reconnectTimer =
      some (min (s.opts.reconnectBaseInterval * 2 ^ s.reconnectAttempts)
                s.opts.maxReconnectInterval) ∧
    reconnectDelays (step s (Ev.transportClose code reason wc)).2 =
      [(s.reconnectAttempts + 1,
        min (s.opts.reconnectBaseInterval * 2 ^ s.reconnectAttempts)
            s.opts.maxReconnectInterval)] := by
  cases s with
  | mk o wsf rs ra fc ir ht htt rt mq =>
      replace hws : wsf = some w := hws
      replace hfc : fc = false := hfc
      replace hir : ir = false := hir
      subst hws; subst hfc; subst hir
      replace hcap : (match o.maxReconnectAttempts with
          | none => false
          | some m => decide (m ≤ ra)) = false := hcap
      refine ⟨?_, ?_⟩ <;>
        simp [step, onClose, onClosePre, stopHeartbeat, scheduleReconnect,
          attemptsReached, backoffInterval, hcap, reconnectDelays]

/-- Witness for C3 at a concrete open manager with default options. -/
theorem c3_reconnect_delay_formula_witness :
    ({ initState {} with ws := some OPEN, readyState := OPEN } : WSState).ws
        = some OPEN ∧
    (step ({ initState {} with ws := some OPEN, readyState := OPEN } : WSState)
        (Ev.transportClose 1006 "abnormal closure" false)).1.reconnectTimer =
      some (min (1000 * 2 ^ 0) 30000) :=
  ⟨rfl,
   (c3_reconnect_delay_formula
      ({ initState {} with ws := some OPEN, readyState := OPEN }) OPEN 1006
      "abnormal closure" false rfl rfl rfl rfl).1⟩

/-- Claim C8: after destroy() returns, none of the heartbeat-interval,
heartbeat-timeout or reconnect-backoff timers of the instance remains
armed, and the firing event of any of the three timers on the destroyed
state produces no state change and no observable effect: nothing is
emitted and no transport method is invoked. -/
theorem c8_destroy_cancels_timers (s : WSState) :
    (afterDestroy s).heartbeatTimer = none ∧
    (afterDestroy s).heartbeatTimeoutTimer = none ∧
    (afterDestroy s).reconnectTimer = none ∧
    step (afterDestroy s) Ev.fireHeartbeat = (afterDestroy s, []) ∧
    step (afterDestroy s) Ev.fireHeartbeatTimeout = (afterDestroy s, []) ∧
    (∀ b : Bool, step (afterDestroy s) (Ev.fireReconnect b) = (afterDestroy s, [])) := by
  have h3 : (afterDestroy s).heartbeatTimer = none ∧
      (afterDestroy s).heartbeatTimeoutTimer = none ∧
      (afterDestroy s).reconnectTimer = none := by
    unfold afterDestroy
    show ((destroy s).1.heartbeatTimer = none ∧
      (destroy s).1.heartbeatTimeoutTimer = none ∧ (destroy s).1.reconnectTimer = none)
    unfold destroy close
    split <;> exact ⟨rfl, rfl, rfl⟩
  refine ⟨h3.1, h3.2.1, h3.2.2, ?_, ?_, ?_⟩
  · simp only [step, h3.1]
  · simp only [step, h3.2.1]
  · intro b
    simp only [step, h3.2.2]

/-- Witness for C8 (sample consequence at a concrete destroyed instance;
the claim theorem itself has no hypothesis). -/
theorem c8_destroy_cancels_timers_witness :
    step (afterDestroy connectingDefault) Ev.fireHeartbeat =
      (afterDestroy connectingDefault, []) :=
  (c8_destroy_cancels_timers connectingDefault).2.2.2.1

/-- Claim C2 evaluated on the code (code bug): with default options
(base 1000, max 30000, unbounded attempts), a run of five consecutive
unexpected drops schedules only ONE reconnect timer, with delay 1000 ms
(emitting a single reconnect-attempt), instead of the five timers with
delays 1000, 2000, 4000, 8000, 16000 that the claim states: after the
first reconnect timer fires, isReconnecting is never cleared (only _onOpen
clears it), so _scheduleReconnect is blocked on every later drop; the run
ends Closed with no timer armed. -/
theorem c2_backoff_run_evaluation :
    reconnectDelays (run (initState {}) c2Trace).2 = [(1, 1000)] ∧
    (run (initState {}) c2Trace).1.reconnectTimer = none ∧
    (run (initState {}) c2Trace).1.isReconnecting = true ∧
    (run (initState {}) c2Trace).1.readyState = CLOSED := by
  exact ⟨rfl, rfl, rfl, rfl⟩

/-- Claim C4 evaluated on the code (code bug): with
maxReconnectAttempts = 3, after the first reconnect attempt fails the
never-cleared isReconnecting flag blocks every later _scheduleReconnect
call, so reconnectAttempts is stuck at 1, the cap of 3 is never reached,
reconnect-failed is never emitted (count 0) over a run with four
unexpected drops, and no further timer is armed — instead of the claimed
single reconnect-failed emission at the cap. -/
theorem c4_cap_run_evaluation :
    reconnectFailedCount (run (initState c4Opts) c4Trace).2 = 0 ∧
    (run (initState c4Opts) c4Trace).1.reconnectAttempts = 1 ∧
    (run (initState c4Opts) c4Trace).1.reconnectTimer = none ∧
    reconnectDelays (run (initState c4Opts) c4Trace).2 = [(1, 1000)] := by
  exact ⟨rfl, rfl, rfl, rfl⟩

/-- Counterexample to claim C6 as stated: on a freshly constructed
manager (transport absent, state Closed), two consecutive close() calls
emit TWO close events in total — each call synthesizes its own close
event with wasClean = true — contradicting "at most one close event in
total". -/
theorem c6_double_close_counterexample :
    closeEmits (run (initState {}) [Ev.callClose 1000 "Normal closure",
        Ev.callClose 1000 "Normal closure"]).2 =
      [(1000, "Normal closure", true), (1000, "Normal closure", true)] ∧
    ¬ (closeEmits (run (initState {}) [Ev.callClose 1000 "Normal closure",
        Ev.callClose 1000 "Normal closure"]).2).length ≤ 1 := by
  exact ⟨rfl, by decide⟩

/-- Claim C6 amended: when the transport is not open, close() is
idempotent on the manager state but not on events — each of two
consecutive close(code, reason) calls emits its own synthetic close event
(two in total), while the second call leaves the state exactly as the
first left it. -/
theorem c6_double_close_amended (s : WSState) (code : Nat) (reason : String)
    (h : wsIsOpen s.ws = false) :
    (closeEmits (run s [Ev.callClose code reason, Ev.callClose code reason]).2).length
        = 2 ∧
    (run s [Ev.callClose code reason, Ev.callClose code reason]).1 =
      (run s [Ev.callClose code reason]).1 := by
  cases s with
  | mk o wsf rs ra fc ir ht htt rt mq =>
      replace h : wsIsOpen wsf = false := h
      simp [run, step, close, closePre, closeEmits, h]

/-- Witness for C6 amended at a fresh default manager. -/
theorem c6_double_close_amended_witness :
    wsIsOpen (initState {}).ws = false ∧
    (run (initState {}) [Ev.callClose 1000 "bye", Ev.callClose 1000 "bye"]).1 =
      (run (initState {}) [Ev.callClose 1000 "bye"]).1 :=
  ⟨rfl, (c6_double_close_amended (initState {}) 1000 "bye" rfl).2⟩

/-- Counterexample to claim C7 as stated: on a fresh manager, a connect()
whose transport construction fails emits only
ready-state-change(Connecting), connecting and error — no reconnect is
scheduled: no reconnect-attempt is emitted and the reconnect timer stays
unarmed, contradicting "a reconnect is scheduled". -/
theorem c7_ctor_failure_counterexample :
    (step (initState {}) (Ev.callConnect false)).2 =
      [Effect.emit (EmitEvent.readyStateChange CONNECTING),
       Effect.emit EmitEvent.connecting, Effect.emit EmitEvent.error] ∧
    (step (initState {}) (Ev.callConnect false)).1.reconnectTimer = none ∧
    reconnectDelays (step (initState {}) (Ev.callConnect false)).2 = [] := by
  exact ⟨rfl, rfl, rfl⟩

/-- Claim C7 amended: if constructing the transport inside connect()
fails, the failure is surfaced only as an error event and connect() does
not throw to its caller (the step is total and returns normally); however
no reconnect is scheduled by this path — the only state change is
forcedClose := false and readyState := Connecting, so in particular the
reconnect timer, the reconnect counter and the socket reference are
unchanged. -/
theorem c7_ctor_failure_amended (s : WSState) (h : wsActive s.ws = false) :
    step s (Ev.callConnect false) =
      ({ s with forcedClose := false, readyState := CONNECTING },
       [Effect.emit (EmitEvent.readyStateChange CONNECTING),
        Effect.emit EmitEvent.connecting, Effect.emit EmitEvent.error]) := by
  show connect false s = _
  unfold connect
  rw [h]
  simp

/-- Witness for C7 amended at a fresh default manager. -/
theorem c7_ctor_failure_amended_witness :
    wsActive (initState {}).ws = false ∧
    step (initState {}) (Ev.callConnect false) =
      ({ initState {} with forcedClose := false, readyState := CONNECTING },
       [Effect.emit (EmitEvent.readyStateChange CONNECTING),
        Effect.emit EmitEvent.connecting, Effect.emit EmitEvent.error]) :=
  ⟨rfl, c7_ctor_failure_amended (initState {}) rfl⟩

/-- With options.getPingMessage null, _onOpen performs no heartbeat start. -/
theorem onOpenPre_noPing (s : WSState) (hp : s.opts.getPingMessage = none) :
    onOpenPre s =
      { s with readyState := OPEN, reconnectAttempts := 0, isReconnecting := false } := by
  unfold onOpenPre
  dsimp only
  have hc : ({ s with
      readyState := OPEN,
      reconnectAttempts := 0,
      isReconnecting := false } : WSState).opts.getPingMessage.isSome = false := by
    show s.opts.getPingMessage.isSome = false
    rw [hp]
    rfl
  rw [hc]
  simp

/-- One-step preservation: with options.getPingMessage null and both
heartbeat timers unarmed, every event leaves the options untouched and
both heartbeat timers unarmed. -/
theorem step_preserves_hb_disabled (s : WSState) (ev : Ev)
    (hp : s.opts.getPingMessage = none)
    (h1 : s.heartbeatTimer = none) (h2 : s.heartbeatTimeoutTimer = none) :
    (step s ev).1.opts.getPingMessage = none ∧
    (step s ev).1.heartbeatTimer = none ∧
    (step s ev).1.heartbeatTimeoutTimer = none := by
  cases ev with
  | callConnect ok =>
      simp only [step]
      refine ⟨?_, ?_, ?_⟩
      · rw [(connect_fields ok s).2.2.2.2]; exact hp
      · rw [(connect_fields ok s).2.2.1]; exact h1
      · rw [(connect_fields ok s).2.2.2.1]; exact h2
  | callSend d =>
      simp only [step]
      unfold send
      split <;> exact ⟨hp, h1, h2⟩
  | callClose code reason =>
      simp only [step]
      unfold close closePre
      split <;> exact ⟨hp, rfl, rfl⟩
  | callDestroy =>
      simp only [step]
      unfold destroy close closePre
      split <;> exact ⟨hp, rfl, rfl⟩
  | transportOpen =>
      simp only [step]
      cases hw : s.ws with
      | none => exact ⟨hp, h1, h2⟩
      | some w =>
          dsimp only
          rw [(onOpen_spec _).1, onOpenPre_noPing _ (by exact hp)]
          exact ⟨hp, h1, h2⟩
  | transportMessage e =>
      simp only [step]
      cases hw : s.ws with
      | none => exact ⟨hp, h1, h2⟩
      | some w =>
          dsimp only
          refine ⟨?_, ?_, ?_⟩
          · rw [(onMessage_fields e s).1]; exact hp
          · rw [(onMessage_fields e s).2.1]; exact h1
          · rcases (onMessage_fields e s).2.2.2.2.2 with hc | hc
            · rw [hc]; exact h2
            · exact hc
  | transportClose code reason wasClean =>
      simp only [step]
      cases hw : s.ws with
      | none => exact ⟨hp, h1, h2⟩
      | some w =>
          dsimp only
          unfold onClose
          split
          · exact ⟨hp, rfl, rfl⟩
          · refine ⟨?_, ?_, ?_⟩
            · rw [(scheduleReconnect_fields _).2.2.2.2]; exact hp
            · rw [(scheduleReconnect_fields _).2.2.1]; rfl
            · rw [(scheduleReconnect_fields _).2.2.2.1]; rfl
  | transportError =>
      simp only [step]
      cases hw : s.ws with
      | none => exact ⟨hp, h1, h2⟩
      | some w => exact ⟨hp, h1, h2⟩
  | fireHeartbeat =>
      simp only [step, h1]
      exact ⟨hp, trivial, h2⟩
  | fireHeartbeatTimeout =>
      simp only [step, h2]
      exact ⟨hp, h1, trivial⟩
  | fireReconnect b =>
      simp only [step]
      cases hrt : s.reconnectTimer with
      | none => exact ⟨hp, h1, h2⟩
      | some t =>
          dsimp only
          refine ⟨?_, ?_, ?_⟩
          · rw [(connect_fields b _).2.2.2.2]; exact hp
          · rw [(connect_fields b _).2.2.1]; exact h1
          · rw [(connect_fields b _).2.2.2.1]; exact h2
  | netOnline ok =>
      simp only [step]
      unfold handleOnline
      split
      · refine ⟨?_, ?_, ?_⟩
        · rw [(connect_fields ok _).2.2.2.2]; exact hp
        · rw [(connect_fields ok _).2.2.1]; exact h1
        · rw [(connect_fields ok _).2.2.2.1]; exact h2
      · exact ⟨hp, h1, h2⟩
  | netOffline =>
      simp only [step]
      unfold handleOffline
      split
      · unfold onClose
        split
        · exact ⟨hp, rfl, rfl⟩
        · refine ⟨?_, ?_, ?_⟩
          · rw [(scheduleReconnect_fields _).2.2.2.2]; exact hp
          · rw [(scheduleReconnect_fields _).2.2.1]; rfl
          · rw [(scheduleReconnect_fields _).2.2.2.1]; rfl
      · exact ⟨hp, h1, h2⟩
  | visibilityChange hidden ok =>
      simp only [step]
      unfold handleVisibilityChange
      have hn : s.opts.getPingMessage.isNone = true := by rw [hp]; rfl
      rw [hn]
      simp only [if_true]
      exact ⟨hp, h1, h2⟩

/-- Claim C5 amended: if the constructor options explicitly pass null for
getPingMessage, the heartbeat sub-protocol is disabled: starting from a
state with both heartbeat timers unarmed, no run of events ever arms the
heartbeat interval or heartbeat timeout timer, and a heartbeat or
heartbeat-timeout timer firing is a complete no-op (no state change, no
event, no transport call) — so no ping is ever transmitted and no
heartbeat timeout can force a close.  (Merely omitting the options
substitutes built-in defaults and leaves the heartbeat enabled, see the
counterexample.) -/
theorem c5_null_ping_disables_heartbeat (s : WSState) (evs : List Ev)
    (hp : s.opts.getPingMessage = none) (h1 : s.heartbeatTimer = none)
    (h2 : s.heartbeatTimeoutTimer = none) :
    (run s evs).1.heartbeatTimer = none ∧
    (run s evs).1.heartbeatTimeoutTimer = none ∧
    step s Ev.fireHeartbeat = (s, []) ∧
    step s Ev.fireHeartbeatTimeout = (s, []) := by
  have hrun : ∀ (t : List Ev) (s0 : WSState), s0.opts.getPingMessage = none →
      s0.heartbeatTimer = none → s0.heartbeatTimeoutTimer = none →
      (run s0 t).1.opts.getPingMessage = none ∧
      (run s0 t).1.heartbeatTimer = none ∧
      (run s0 t).1.heartbeatTimeoutTimer = none := by
    intro t
    induction t with
    | nil => intro s0 a b c; exact ⟨a, b, c⟩
    | cons ev rest ih =>
        intro s0 a b c
        have hstep := step_preserves_hb_disabled s0 ev a b c
        exact ih (step s0 ev).1 hstep.1 hstep.2.1 hstep.2.2
  refine ⟨(hrun evs s hp h1 h2).2.1, (hrun evs s hp h1 h2).2.2, ?_, ?_⟩
  · simp only [step, h1]
  · simp only [step, h2]

/-- Witness for C5 amended: a manager constructed with explicit null
heartbeat functions, connected and opened, has no heartbeat timer. -/
theorem c5_null_ping_disables_heartbeat_witness :
    (initState c5Opts).opts.getPingMessage = none ∧
    (run (initState c5Opts) [Ev.callConnect true, Ev.transportOpen]).1.heartbeatTimer
      = none :=
  ⟨rfl,
   (c5_null_ping_disables_heartbeat (initState c5Opts)
      [Ev.callConnect true, Ev.transportOpen] rfl rfl rfl).1⟩

/-- Counterexample to claim C5 as stated: when the constructor options
omit getPingMessage and isPongMessage entirely, the merge substitutes the
built-in defaults, so the merged getPingMessage is present, and on
entering Open the heartbeat interval timer IS armed (with the default
30000 ms) — contradicting "no heartbeat timer is started on entering
Open". -/
theorem c5_omitted_options_counterexample :
    (mergeOptions {}).getPingMessage.isSome = true ∧
    (run (initState {}) [Ev.callConnect true, Ev.transportOpen]).1.heartbeatTimer =
      some 30000 ∧
    (run (initState {}) [Ev.callConnect true, Ev.transportOpen]).1.heartbeatTimer ≠
      none := by
  exact ⟨rfl, rfl, by decide⟩

/-- Claim C9: on every transition to Open (transport-level open event on
an existing socket) reconnectAttempts is reset to 0, regardless of its
prior value; for every other event reconnectAttempts either stays
unchanged or increases by exactly one, and it increases only when an
armed reconnect timer fires. -/
theorem c9_reconnect_attempts_evolution (s : WSState) (ev : Ev) :
    ((∃ w, s.ws = some w) → ev = Ev.transportOpen →
      (step s ev).1.reconnectAttempts = 0) ∧
    (ev ≠ Ev.transportOpen →
      (step s ev).1.reconnectAttempts = s.reconnectAttempts ∨
      ((step s ev).1.reconnectAttempts = s.reconnectAttempts + 1 ∧
       (∃ b, ev = Ev.fireReconnect b) ∧ s.reconnectTimer ≠ none)) := by
  constructor
  · rintro ⟨w, hw⟩ rfl
    simp only [step, hw]
    rw [(onOpen_spec _).1]
    exact (onOpenPre_fields _).2.2.2.1
  · intro hne
    cases ev with
    | transportOpen => exact absurd rfl hne
    | callConnect ok => exact Or.inl (connect_fields ok s).1
    | callSend d =>
        refine Or.inl ?_
        show (send d s).1.reconnectAttempts = s.reconnectAttempts
        unfold send
        split <;> rfl
    | callClose code reason =>
        refine Or.inl ?_
        show (close code reason s).1.reconnectAttempts = s.reconnectAttempts
        unfold close
        split <;> rfl
    | callDestroy =>
        refine Or.inl ?_
        show (destroy s).1.reconnectAttempts = s.reconnectAttempts
        unfold destroy close
        split <;> rfl
    | transportMessage e =>
        refine Or.inl ?_
        simp only [step]
        cases hw : s.ws with
        | none => rfl
        | some w =>
            dsimp only
            exact (onMessage_fields e s).2.2.1
    | transportClose code reason wasClean =>
        refine Or.inl ?_
        simp only [step]
        cases hw : s.ws with
        | none => rfl
        | some w =>
            dsimp only
            exact (onClose_fields code reason wasClean _).1
    | transportError =>
        refine Or.inl ?_
        simp only [step]
        cases hw : s.ws with
        | none => rfl
        | some w => rfl
    | fireHeartbeat =>
        refine Or.inl ?_
        simp only [step]
        cases ht : s.heartbeatTimer with
        | none => rfl
        | some t =>
            dsimp only
            show (heartbeatTick s).1.reconnectAttempts = s.reconnectAttempts
            unfold heartbeatTick
            split
            · split <;> rfl
            · rfl
    | fireHeartbeatTimeout =>
        refine Or.inl ?_
        simp only [step]
        cases ht : s.heartbeatTimeoutTimer with
        | none => rfl
        | some t =>
            dsimp only
            show (heartbeatTimeoutFire s).1.reconnectAttempts = s.reconnectAttempts
            unfold heartbeatTimeoutFire
            split <;> rfl
    | fireReconnect b =>
        simp only [step]
        cases hrt : s.reconnectTimer with
        | none => exact Or.inl rfl
        | some t =>
            dsimp only
            refine Or.inr ⟨?_, ⟨b, rfl⟩, ?_⟩
            · rw [(connect_fields b _).1]
            · exact fun hn => Option.noConfusion hn
    | netOnline ok =>
        refine Or.inl ?_
        simp only [step]
        unfold handleOnline
        split
        · rw [(connect_fields ok _).1]
          rfl
        · rfl
    | netOffline =>
        refine Or.inl ?_
        simp only [step]
        unfold handleOffline
        split
        · exact (onClose_fields 1006 "Network offline" false _).1
        · rfl
    | visibilityChange hidden ok =>
        refine Or.inl ?_
        simp only [step]
        unfold handleVisibilityChange
        split
        · rfl
        · split
          · rfl
          · split
            · exact (startHeartbeat_fields s).1
            · split
              · exact (connect_fields ok s).1
              · rfl

/-- Witness for C9: a transport open on a manager with seven prior
attempts resets the counter to 0. -/
theorem c9_reconnect_attempts_evolution_witness :
    (step ({ initState {} with
        ws := some OPEN,
        readyState := OPEN,
        reconnectAttempts := 7 } : WSState) Ev.transportOpen).1.reconnectAttempts = 0 :=
  (c9_reconnect_attempts_evolution _ Ev.transportOpen).1 ⟨OPEN, rfl⟩ rfl

/-- Claim C10: with both heartbeat options omitted, the constructor merge
substitutes the built-in defaults: the default ping payload is the JSON
string holding exactly one field, type = "ping", and the default pong
detector returns true exactly for events whose data parses as JSON
carrying a type field equal to "pong", and returns false — without
throwing, which totality of the Lean function models — for any data on
which JSON.parse fails. -/
theorem c10_default_heartbeat_functions :
    (mergeOptions {}).getPingMessage = some defaultGetPingMessage ∧
    (mergeOptions {}).isPongMessage = some defaultIsPongMessage ∧
    defaultGetPingMessage () = "\x7b\"type\":\"ping\"\x7d" ∧
    (∀ e : MsgEvent, e.parsed = none → defaultIsPongMessage e = false) ∧
    (∀ e : MsgEvent, defaultIsPongMessage e = true ↔
      ∃ v, e.parsed = some v ∧ jsGetField v "type" = some (JsValue.str "pong")) := by
  refine ⟨rfl, rfl, rfl, ?_, ?_⟩
  · intro e he
    unfold defaultIsPongMessage
    rw [he]
  · intro e
    unfold defaultIsPongMessage
    cases hp : e.parsed with
    | none => simp
    | some v =>
        cases hf : jsGetField v "type" with
        | none => simp [hf]
        | some jv =>
            cases jv with
            | null => simp [hf]
            | bool b => simp [hf]
            | num n => simp [hf]
            | str t => simp [hf, beq_iff_eq]
            | arr xs => simp [hf]
            | obj fs => simp [hf]

/-- Witness for C10: the default detector rejects an event whose data is
not valid JSON and accepts a parsed pong object. -/
theorem c10_default_heartbeat_functions_witness :
    defaultIsPongMessage ⟨"not json", none⟩ = false ∧
    defaultIsPongMessage ⟨"\x7b\"type\":\"pong\"\x7d",
        some (JsValue.obj [("type", JsValue.str "pong")])⟩ = true :=
  ⟨c10_default_heartbeat_functions.2.2.2.1 ⟨"not json", none⟩ rfl,
   (c10_default_heartbeat_functions.2.2.2.2 _).2
     ⟨JsValue.obj [("type", JsValue.str "pong")], rfl, rfl⟩⟩

end WSM
